import Mathlib

/-!
Verification of the TGW-playbook batch-generation and quality-control core.

This file shallowly embeds the two batch processors of the repository:

* `stages/stage3-default-notebook/batch_processor.py`
  (`QualityMetrics`, `TGWBatchGenerator.generate_single`,
  `TGWBatchGenerator.batch_generate`, `_calculate_overall_quality`), and
* `stages/stage3-default-notebook/tools/batch_processor.py`
  (`QualityController.evaluate_quality`, `AdvancedBatchProcessor.process_batch`,
  `_process_single_task`, `_handle_retries`, `_generate_summary`).

Modelling conventions:

* Python strings are `List Char`; `str.strip`, `str.split`, `re.split` and
  `re.findall` are embedded as the explicit list functions below.  the Python
  default whitespace set is modelled by its ASCII members, and `str.lower`
  by `Char.toLower`; no claim in this file depends on the non-ASCII cases.
* Python floats are modelled as exact rationals (`Rat`).  `round(x, 3)` is
  modelled as rounding half-up on rationals (`round3`); every property proved
  here only uses that the rounding is monotone and fixes `0` and `1`.
* The HTTP world is an oracle `HttpOutcome`: a transport/parse exception with
  its `str(e)` message, or a response with a status code and, for status 200,
  the extracted `choices[0].text`.  Elapsed wall-clock time is carried in the
  outcome; `datetime.now().isoformat()` is modelled as `""`.
* Thread-pool completion order (`as_completed`) is nondeterministic; every
  property proved below is about partition membership, which is invariant
  under the order in which results are collected, so results are modelled in
  submission order.
* the Python `list.sort` is a stable in-place sort; its result is modelled by
  `List.insertionSort` with the descending-priority relation, and the
  in-place effect by giving the post-call contents of the list of the caller
  explicitly (`batchGenerateCallerTasks`, `processBatchCallerTasks`).
* A Python expression that can raise `ZeroDivisionError` is modelled with
  `pyDiv : Rat → Rat → Option Rat`, `none` meaning the fault.
-/

/-- the Python default whitespace (ASCII members), as used by `str.strip()`
and `str.split()`. -/
def isSpaceChar (c : Char) : Bool :=
  c = ' ' || c = '\t' || c = '\n' || c = '\r' || c = '\x0b' || c = '\x0c'

/-- Python `str.strip()`. -/
def pyStrip (s : List Char) : List Char :=
  ((s.dropWhile isSpaceChar).reverse.dropWhile isSpaceChar).reverse

/-- Split a character list at every character satisfying `p`, keeping empty
segments, as the Python `re.split` on a character class does
(`re.split("[.!?。！？]", text)`). -/
def splitOnPred (p : Char → Bool) : List Char → List (List Char)
  | [] => [[]]
  | c :: cs =>
    if p c then [] :: splitOnPred p cs
    else
      match splitOnPred p cs with
      | [] => [[c]]
      | s :: ss => (c :: s) :: ss

/-- Python `str.split()` with no argument: split on whitespace runs,
discarding empty segments. -/
def pyWords (s : List Char) : List (List Char) :=
  (splitOnPred isSpaceChar s).filter (fun w => w ≠ [])

/-- The sentence-delimiter class `[.!?。！？]` of `batch_processor.py`. -/
def sentenceDelims : List Char := ['.', '!', '?', '。', '！', '？']

/-- The punctuation class `[.!?。！？,，;；:]` of `calculate_readability`. -/
def punctChars : List Char := ['.', '!', '?', '。', '！', '？', ',', '，', ';', '；', ':']

/-- A word character for `re.findall(r"\b\w+\b", ...)`: ASCII alphanumerics,
underscore, and CJK ideographs (the sub-ranges of the Python Unicode `\w`
exercised by this repository; no claim depends on the exact class). -/
def isWordChar (c : Char) : Bool :=
  c.isAlphanum || c = '_' || (0x4E00 ≤ c.toNat && c.toNat ≤ 0x9FFF)

/-- `re.findall(r"\b\w+\b", s)`: the maximal runs of word characters. -/
def wordRuns (s : List Char) : List (List Char) :=
  (splitOnPred (fun c => !isWordChar c) s).filter (fun w => w ≠ [])

/-- Python `str.lower()` (ASCII case folding; no claim depends on more). -/
def lowerStr (s : List Char) : List Char := s.map Char.toLower

/-- the Python `needle in haystack` substring test. -/
def containsSub (needle hay : List Char) : Bool :=
  hay.tails.any (fun t => needle.isPrefixOf t)

/-- Python `round(x, 3)` modelled on exact rationals (round half-up; the
properties proved here use only monotonicity and that `0` and `1` are fixed). -/
def round3 (q : Rat) : Rat := (⌊q * 1000 + 1 / 2⌋ : Int) / 1000

/-- Python `round(x, 2)` modelled on exact rationals. -/
def round2 (q : Rat) : Rat := (⌊q * 100 + 1 / 2⌋ : Int) / 100

/-- Python `/` on numbers: raises `ZeroDivisionError` on a zero divisor,
modelled as `none`. -/
def pyDiv (a b : Rat) : Option Rat := if b = 0 then none else some (a / b)

/-- `statistics.mean` (its callers below guard against the empty list). -/
def ratMean (l : List Rat) : Rat := l.sum / (l.length : Rat)

/-- Generation parameters: a Python dict with string keys and numeric
values (`temperature`, `top_p`, `max_new_tokens`, ...). -/
abbrev Params := List (String × Rat)

/-- Python `d.get(k, dflt)`: the value of the first binding of `k`, else the
default (dict keys are unique, so first-match lookup is the dict lookup). -/
def dictGet (d : Params) (k : String) (dflt : Rat) : Rat :=
  match d with
  | [] => dflt
  | p :: rest => if p.1 = k then p.2 else dictGet rest k dflt

/-- Python `d[k] = v`: overwrite the existing binding or append a new one. -/
def dictSet (d : Params) (k : String) (v : Rat) : Params :=
  match d with
  | [] => [(k, v)]
  | p :: rest => if p.1 = k then (k, v) :: rest else p :: dictSet rest k v

/-- Task metadata (free-form key-value pairs; values are treated abstractly here). -/
abbrev Meta := List (String × String)

namespace QualityMetrics

/-- The non-empty, stripped sentences of a text: `re.split(r"[.!?。！？]", text)`
followed by `strip` and dropping empties. -/
def sentencesOf (text : List Char) : List (List Char) :=
  ((splitOnPred (fun c => c ∈ sentenceDelims) text).map pyStrip).filter
    (fun s => s ≠ [])

/-- `QualityMetrics.calculate_readability` of `batch_processor.py`. -/
def calculate_readability (text : List Char) : Rat :=
  if pyStrip text = [] then 0
  else
    let sentences := sentencesOf text
    if sentences = [] then 0
    else
      let avgSentenceLength : Rat :=
        ((sentences.map (fun s => ((pyWords s).length : Rat))).sum) /
          (sentences.length : Rat)
      let punctCount : Nat := (text.filter (fun c => c ∈ punctChars)).length
      let punctDensity : Rat :=
        (punctCount : Rat) / ((max (pyWords text).length 1 : Nat) : Rat)
      round3 (max 0 (min 1 (1 - (avgSentenceLength - 15) / 30)) * (7 / 10) +
        min (punctDensity * 10) 1 * (3 / 10))

/-- The connector-word list of `calculate_coherence`. -/
def connectors : List (List Char) :=
  ["因此".toList, "所以".toList, "但是".toList, "然而".toList, "此外".toList,
   "另外".toList, "首先".toList, "其次".toList, "最後".toList, "總之".toList]

/-- `QualityMetrics.calculate_coherence` of `batch_processor.py`. -/
def calculate_coherence (text : List Char) : Rat :=
  if pyStrip text = [] then 0
  else
    let sentences := sentencesOf text
    if sentences.length < 2 then 1 / 2
    else
      let connectorUsage : Nat :=
        (connectors.filter (fun c => containsSub c text)).length
      let connectorScore : Rat :=
        min ((connectorUsage : Rat) / max ((sentences.length : Rat) * (3 / 10)) 1) 1
      let ws := pyWords text
      let repetitionRate : Rat :=
        ((ws.dedup.length : Nat) : Rat) / ((max ws.length 1 : Nat) : Rat)
      round3 (connectorScore * (6 / 10) + repetitionRate * (4 / 10))

/-- The conclusion-marker list of `calculate_completeness`. -/
def conclusionMarkers : List (List Char) :=
  ["總結".toList, "結論".toList, "綜上".toList, "最後".toList, "。".toList, "！".toList]

/-- `QualityMetrics.calculate_completeness` of `batch_processor.py`. -/
def calculate_completeness (text prompt : List Char) : Rat :=
  if pyStrip text = [] then 0
  else
    let lengthRate : Rat :=
      (text.length : Rat) / ((max (prompt.length * 2) 100 : Nat) : Rat)
    let lengthScore : Rat := min lengthRate 1
    let hasConclusion : Bool := conclusionMarkers.any (fun m => containsSub m text)
    let conclusionScore : Rat := if hasConclusion then 1 else 1 / 2
    round3 (lengthScore * (7 / 10) + conclusionScore * (3 / 10))

/-- `QualityMetrics.calculate_relevance` of `batch_processor.py`. -/
def calculate_relevance (text prompt : List Char) : Rat :=
  if pyStrip text = [] || pyStrip prompt = [] then 0
  else
    let promptWords := (wordRuns (lowerStr prompt)).dedup
    let textWords := (wordRuns (lowerStr text)).dedup
    let overlapRate : Rat :=
      if promptWords ≠ [] then
        (((promptWords.filter (fun w => w ∈ textWords)).length : Nat) : Rat) /
          (promptWords.length : Rat)
      else 0
    round3 overlapRate

end QualityMetrics

/-- `TGWBatchGenerator._calculate_overall_quality`: the equal-weighted
average of the four sub-scores, rounded to three decimals. -/
def calculateOverallQuality (text prompt : List Char) : Rat :=
  round3 (QualityMetrics.calculate_readability text * (1 / 4) +
    QualityMetrics.calculate_coherence text * (1 / 4) +
    QualityMetrics.calculate_completeness text prompt * (1 / 4) +
    QualityMetrics.calculate_relevance text prompt * (1 / 4))

namespace QualityController

/-- The stop-word set of `QualityController.evaluate_quality`. -/
def commonWords : List (List Char) :=
  ["的".toList, "是".toList, "在".toList, "有".toList,
   "the".toList, "is".toList, "are".toList, "and".toList]

/-- The terminal-punctuation tuple of `text.strip().endswith(...)`. -/
def endingChars : List Char := ['.', '!', '?', '。', '！', '？']

/-- `QualityController.evaluate_quality` of `tools/batch_processor.py`. -/
def evaluate_quality (text prompt : List Char) : Rat :=
  if text = [] || pyStrip text = [] then 0
  else
    let lengthScore : Rat :=
      min 1 ((text.length : Rat) / ((max (prompt.length * 2) 100 : Nat) : Rat))
    let hasEnding : Bool :=
      match (pyStrip text).getLast? with
      | some c => c ∈ endingChars
      | none => false
    let completenessScore : Rat := if hasEnding then 1 else 7 / 10
    let promptWords :=
      ((pyWords (lowerStr prompt)).dedup).filter (fun w => w ∉ commonWords)
    let textWords := (pyWords (lowerStr text)).dedup
    let relevanceScore : Rat :=
      (((promptWords.filter (fun w => w ∈ textWords)).length : Nat) : Rat) /
        ((max promptWords.length 1 : Nat) : Rat)
    min 1 (lengthScore * (3 / 10) + completenessScore * (3 / 10) +
      relevanceScore * (4 / 10))

/-- `QualityController.should_retry`. -/
def should_retry (minQuality score : Rat) : Bool := score < minQuality

end QualityController

/-- `GenerationTask` of `batch_processor.py` (`None` metadata is modelled as
the empty mapping, as `create_task` normalises it). -/
structure GenerationTask where
  id : String
  prompt : List Char
  parameters : Params
  templateName : String := ""
  priority : Int := 1
  metadata : Meta := []
deriving DecidableEq

/-- `GenerationResult` of `batch_processor.py`. -/
structure GenerationResult where
  taskId : String
  prompt : List Char
  generatedText : List Char
  parameters : Params
  generationTime : Rat
  tokenCount : Nat
  qualityScore : Rat
  metadata : Meta
  timestamp : String
  success : Bool
  errorMessage : String := ""
deriving DecidableEq

/-- The observable outcome of one `requests.post` call: a transport or
parse exception with its `str(e)` message, or an HTTP response with its
status code and (for status 200) the extracted `choices[0].text`.  The
elapsed wall-clock time of the call is carried alongside. -/
inductive HttpOutcome where
  | exc (msg : String) (elapsed : Rat)
  | resp (status : Nat) (text : List Char) (elapsed : Rat)
deriving DecidableEq

/-- `TGWBatchGenerator.generate_single`: one blocking request, every failure
converted into a `GenerationResult`.  The function is total over all
`HttpOutcome`s — this is the embedding of "never raises past this
boundary". -/
def generate_single (task : GenerationTask) (outcome : HttpOutcome) :
    GenerationResult :=
  match outcome with
  | .resp status text elapsed =>
    if status = 200 then
      { taskId := task.id
        prompt := task.prompt
        generatedText := text
        parameters := task.parameters
        generationTime := elapsed
        tokenCount := (pyWords text).length
        qualityScore := calculateOverallQuality text task.prompt
        metadata := task.metadata
        timestamp := ""
        success := true
        errorMessage := "" }
    else
      { taskId := task.id
        prompt := task.prompt
        generatedText := []
        parameters := task.parameters
        generationTime := elapsed
        tokenCount := 0
        qualityScore := 0
        metadata := task.metadata
        timestamp := ""
        success := false
        errorMessage := "API 錯誤: " ++ toString status }
  | .exc msg elapsed =>
    { taskId := task.id
      prompt := task.prompt
      generatedText := []
      parameters := task.parameters
      generationTime := elapsed
      tokenCount := 0
      qualityScore := 0
      metadata := task.metadata
      timestamp := ""
      success := false
      errorMessage := msg }

/-- Descending-priority ordering used by `tasks.sort(key=..., reverse=True)`. -/
def taskGE (a b : GenerationTask) : Prop := b.priority ≤ a.priority

instance : DecidableRel taskGE := fun a b => Int.decLe b.priority a.priority

instance : IsTotal GenerationTask taskGE :=
  ⟨fun a b => le_total b.priority a.priority⟩

instance : IsTrans GenerationTask taskGE :=
  ⟨fun _ _ _ h1 h2 => le_trans h2 h1⟩

/-- The result of the Python stable in-place `tasks.sort(key=lambda t:
t.priority, reverse=True)` in `batch_generate`; since the sort mutates the
list object of the caller, this is also the post-call content of that
list. -/
def pySortTasks (tasks : List GenerationTask) : List GenerationTask :=
  List.insertionSort taskGE tasks

/-- The contents of the task-list object of the caller after
`TGWBatchGenerator.batch_generate` returns (the list is sorted in place). -/
def batchGenerateCallerTasks (tasks : List GenerationTask) :
    List GenerationTask :=
  pySortTasks tasks

/-- The retry task built in `batch_generate` for a low-quality result: copied
parameters with `temperature = max(0.3, old - 0.2)`, and the `_retry`-suffixed
identifier; `template_name` and `priority` take the dataclass defaults. -/
def mkRetryTask (r : GenerationResult) : GenerationTask :=
  { id := r.taskId ++ "_retry"
    prompt := r.prompt
    parameters :=
      dictSet r.parameters "temperature"
        (max (3 / 10) (dictGet r.parameters "temperature" (7 / 10) - 1 / 5))
    metadata := r.metadata }

/-- One pool round of `batch_generate`: sort by descending priority, run
every task.  (Results are listed in submission order; all properties proved
below are membership properties, invariant under `as_completed` reordering.) -/
def roundResults (run : GenerationTask → HttpOutcome)
    (tasks : List GenerationTask) : List GenerationResult :=
  (pySortTasks tasks).map (fun t => generate_single t (run t))

/-- The accepted results of one round: `success` and score at or above the
threshold. -/
def acceptedOf (threshold : Rat) (rs : List GenerationResult) :
    List GenerationResult :=
  rs.filter (fun r => r.success && decide (threshold ≤ r.qualityScore))

/-- The low-quality results of one round: `success` but score below the
threshold. -/
def lowQualityOf (threshold : Rat) (rs : List GenerationResult) :
    List GenerationResult :=
  rs.filter (fun r => r.success && decide (r.qualityScore < threshold))

/-- The failed results of one round. -/
def failedOf (rs : List GenerationResult) : List GenerationResult :=
  rs.filter (fun r => !r.success)

/-- The `successful` list accumulated by `batch_generate` across its retry
recursion: the accepted results of the round, extended by the `successful` list of
the recursive call on the retry tasks when there are low-quality results and
retry budget remains.  (The other partitions of the recursive call are discarded
by the code: only `retry_results["successful"]` is read.) -/
def batchSuccessful (run : GenerationTask → HttpOutcome) (threshold : Rat) :
    Nat → List GenerationTask → List GenerationResult
  | 0, tasks => acceptedOf threshold (roundResults run tasks)
  | n + 1, tasks =>
    let rs := roundResults run tasks
    let lowq := lowQualityOf threshold rs
    acceptedOf threshold rs ++
      (if lowq = [] then []
       else batchSuccessful run threshold n (lowq.map mkRetryTask))

/-- The number of retry rounds `batch_generate` actually performs. -/
def numRetryRounds (run : GenerationTask → HttpOutcome) (threshold : Rat) :
    Nat → List GenerationTask → Nat
  | 0, _ => 0
  | n + 1, tasks =>
    let lowq := lowQualityOf threshold (roundResults run tasks)
    if lowq = [] then 0
    else 1 + numRetryRounds run threshold n (lowq.map mkRetryTask)

/-- The summary dict built at the end of `batch_generate`.  `success_rate`
is computed as `len(successful)/len(tasks)*100` with an unguarded division:
`none` models the `ZeroDivisionError` raised when `tasks` is empty.  The two
averages are guarded by the code (`if successful_results else 0`,
`if all_results else 0`). -/
structure BatchSummary where
  totalTasks : Nat
  successfulCount : Nat
  failedCount : Nat
  lowQualityCount : Nat
  successRate : Option Rat
  avgQualityScore : Rat
  totalGenerationTime : Rat
  avgGenerationTime : Rat
deriving DecidableEq

/-- The dictionary returned by `TGWBatchGenerator.batch_generate`. -/
structure BatchOutput where
  successful : List GenerationResult
  failed : List GenerationResult
  lowQuality : List GenerationResult
  allResults : List GenerationResult
  summary : BatchSummary
deriving DecidableEq

/-- `TGWBatchGenerator.batch_generate`, parameterised by the HTTP oracle
`run` and with the retry budget `maxRetries` as recursion fuel. -/
def batchGenerate (run : GenerationTask → HttpOutcome) (threshold : Rat)
    (maxRetries : Nat) (tasks : List GenerationTask) : BatchOutput :=
  let rs := roundResults run tasks
  let succ := batchSuccessful run threshold maxRetries tasks
  let failed := failedOf rs
  let lowq := lowQualityOf threshold rs
  { successful := succ
    failed := failed
    lowQuality := lowq
    allResults := rs
    summary :=
      { totalTasks := tasks.length
        successfulCount := succ.length
        failedCount := failed.length
        lowQualityCount := lowq.length
        successRate :=
          (pyDiv (succ.length : Rat) (tasks.length : Rat)).map (fun x => x * 100)
        avgQualityScore :=
          if succ ≠ [] then ratMean (succ.map (fun r => r.qualityScore)) else 0
        totalGenerationTime := (rs.map (fun r => r.generationTime)).sum
        avgGenerationTime :=
          if rs ≠ [] then ratMean (rs.map (fun r => r.generationTime)) else 0 } }

/-- `BatchTask` of `tools/batch_processor.py`. -/
structure BatchTask where
  id : String
  prompt : List Char
  parameters : Params
  metadata : Meta := []
  priority : Int := 1
deriving DecidableEq

/-- `BatchResult` of `tools/batch_processor.py`. -/
structure BatchResult where
  taskId : String
  success : Bool
  generatedText : List Char
  generationTime : Rat
  qualityScore : Rat
  errorMessage : String := ""
  metadata : Meta := []
deriving DecidableEq

/-- `AdvancedBatchProcessor._process_single_task`: total over all HTTP
outcomes; note that `quality_score` is `0.0` at creation even on success
("將在後續計算" — it is filled in later by the caller). -/
def processSingleTask (task : BatchTask) (outcome : HttpOutcome) : BatchResult :=
  match outcome with
  | .resp status text elapsed =>
    if status = 200 then
      { taskId := task.id
        success := true
        generatedText := text
        generationTime := elapsed
        qualityScore := 0
        metadata := task.metadata }
    else
      { taskId := task.id
        success := false
        generatedText := []
        generationTime := elapsed
        qualityScore := 0
        errorMessage := "API 錯誤: " ++ toString status
        metadata := task.metadata }
  | .exc msg elapsed =>
    { taskId := task.id
      success := false
      generatedText := []
      generationTime := elapsed
      qualityScore := 0
      errorMessage := msg
      metadata := task.metadata }

/-- Descending-priority ordering for the in-place sort of `process_batch`. -/
def batchTaskGE (a b : BatchTask) : Prop := b.priority ≤ a.priority

instance : DecidableRel batchTaskGE := fun a b => Int.decLe b.priority a.priority

instance : IsTotal BatchTask batchTaskGE :=
  ⟨fun a b => le_total b.priority a.priority⟩

instance : IsTrans BatchTask batchTaskGE :=
  ⟨fun _ _ _ h1 h2 => le_trans h2 h1⟩

/-- The result of `tasks.sort(key=lambda t: t.priority, reverse=True)` in
`process_batch`; since the sort mutates the list object of the caller, this is
also the post-call content of the list of the caller. -/
def pySortBatchTasks (tasks : List BatchTask) : List BatchTask :=
  List.insertionSort batchTaskGE tasks

/-- The contents of the task-list object of the caller after
`AdvancedBatchProcessor.process_batch` returns. -/
def processBatchCallerTasks (tasks : List BatchTask) : List BatchTask :=
  pySortBatchTasks tasks

/-- The first round of `process_batch`: each task paired with its result,
with `quality_score` filled in by `QualityController.evaluate_quality` on
success.  (Pairs are in submission order; all proved properties are
membership properties, invariant under `as_completed` reordering.) -/
def scoredResults (run : BatchTask → HttpOutcome) (tasks : List BatchTask) :
    List (BatchTask × BatchResult) :=
  (pySortBatchTasks tasks).map (fun t =>
    let r := processSingleTask t (run t)
    (t, if r.success then
          { r with qualityScore :=
              QualityController.evaluate_quality r.generatedText t.prompt }
        else r))

/-- The first-round successes kept directly (quality at or above
`min_quality`, i.e. `should_retry` is false). -/
def toolsSuccessful0 (run : BatchTask → HttpOutcome) (minQuality : Rat)
    (tasks : List BatchTask) : List BatchResult :=
  ((scoredResults run tasks).filter (fun p =>
      p.2.success && !QualityController.should_retry minQuality p.2.qualityScore)).map
    (fun p => p.2)

/-- The retry queue of `process_batch`: the *tasks* (not the results) of the
successful-but-low-quality generations; the low-quality first-round result
itself is appended to no partition. -/
def toolsRetryQueue (run : BatchTask → HttpOutcome) (minQuality : Rat)
    (tasks : List BatchTask) : List BatchTask :=
  ((scoredResults run tasks).filter (fun p =>
      p.2.success && QualityController.should_retry minQuality p.2.qualityScore)).map
    (fun p => p.1)

/-- The failed partition of `process_batch`. -/
def toolsFailed (run : BatchTask → HttpOutcome) (tasks : List BatchTask) :
    List BatchResult :=
  ((scoredResults run tasks).filter (fun p => !p.2.success)).map (fun p => p.2)

/-- The parameter adjustment `_handle_retries` performs: it writes
`max(0.3, temperature - 0.2)` into `task.parameters` *in place* — the task
object of the caller itself is mutated, its identifier unchanged; this definition is
the post-mutation state of that task object. -/
def retryAdjust (t : BatchTask) : BatchTask :=
  let newTemp : Rat := max (3 / 10) (dictGet t.parameters "temperature" (7 / 10) - 1 / 5)
  { t with parameters := dictSet t.parameters "temperature" newTemp }

/-- `AdvancedBatchProcessor._handle_retries`: re-run each queued task with
lowered temperature; keep only retry results that succeed with quality at or
above `min_quality`, dropping the rest (only a warning is logged for them). -/
def handleRetries (run : BatchTask → HttpOutcome) (minQuality : Rat)
    (tasks : List BatchTask) : List BatchResult :=
  tasks.filterMap (fun t =>
    let t2 := retryAdjust t
    let r := processSingleTask t2 (run t2)
    if r.success then
      let q := QualityController.evaluate_quality r.generatedText t2.prompt
      if minQuality ≤ q then
        some { r with qualityScore := q }
      else none
    else none)

/-- The summary dict of `AdvancedBatchProcessor._generate_summary`.  Note
`total_tasks` is `len(successful) + len(failed)` — retried-and-dropped tasks
are not counted.  `success_rate` is guarded (`if total_tasks > 0 else 0`). -/
structure ToolsSummary where
  totalTasks : Nat
  successfulCount : Nat
  failedCount : Nat
  successRate : Rat
  averageGenerationTime : Rat
  averageQualityScore : Rat
  qualityDistribution : List (String × Nat)
deriving DecidableEq

/-- `AdvancedBatchProcessor._generate_summary`. -/
def generateSummary (successful failed : List BatchResult) : ToolsSummary :=
  let total := successful.length + failed.length
  let avgTime : Rat :=
    if successful ≠ [] then ratMean (successful.map (fun r => r.generationTime))
    else 0
  let avgQuality : Rat :=
    if successful ≠ [] then ratMean (successful.map (fun r => r.qualityScore))
    else 0
  let distribution : List (String × Nat) :=
    if successful ≠ [] then
      [("excellent", (successful.filter (fun r => decide ((8:Rat)/10 ≤ r.qualityScore))).length),
       ("good", (successful.filter (fun r =>
          decide ((6:Rat)/10 ≤ r.qualityScore) && decide (r.qualityScore < 8/10))).length),
       ("acceptable", (successful.filter (fun r =>
          decide ((4:Rat)/10 ≤ r.qualityScore) && decide (r.qualityScore < 6/10))).length),
       ("poor", (successful.filter (fun r => decide (r.qualityScore < (4:Rat)/10))).length)]
    else []
  { totalTasks := total
    successfulCount := successful.length
    failedCount := failed.length
    successRate :=
      if total > 0 then (successful.length : Rat) / (total : Rat) * 100 else 0
    averageGenerationTime := round2 avgTime
    averageQualityScore := round3 avgQuality
    qualityDistribution := distribution }

/-- The dictionary returned by `AdvancedBatchProcessor.process_batch`
(`timestamp` omitted). -/
structure ToolsOutput where
  successfulResults : List BatchResult
  failedResults : List BatchResult
  summary : ToolsSummary
deriving DecidableEq

/-- `AdvancedBatchProcessor.process_batch`: first round, one retry pass over
the retry queue when the budget allows, then the summary. -/
def processBatch (run : BatchTask → HttpOutcome) (minQuality : Rat)
    (maxRetries : Nat) (tasks : List BatchTask) : ToolsOutput :=
  let succ0 := toolsSuccessful0 run minQuality tasks
  let queue := toolsRetryQueue run minQuality tasks
  let retryResults :=
    if queue ≠ [] ∧ maxRetries > 0 then handleRetries run minQuality queue
    else []
  let succ := succ0 ++ retryResults
  let failed := toolsFailed run tasks
  { successfulResults := succ
    failedResults := failed
    summary := generateSummary succ failed }

-- Helper lemmas

theorem round3_mono {a b : Rat} (h : a ≤ b) : round3 a ≤ round3 b := by
  unfold round3
  have hf : (⌊a * 1000 + 1 / 2⌋ : Int) ≤ ⌊b * 1000 + 1 / 2⌋ :=
    Int.floor_mono (by nlinarith)
  gcongr

theorem round3_zero : round3 0 = 0 := by norm_num [round3]

theorem round3_one : round3 1 = 1 := by
  unfold round3
  have h : (⌊(1 : Rat) * 1000 + 1 / 2⌋ : Int) = 1000 := by
    rw [Int.floor_eq_iff] ; norm_num
  rw [h]
  norm_num

theorem round3_nonneg {q : Rat} (h : 0 ≤ q) : 0 ≤ round3 q := by
  have := round3_mono h
  rwa [round3_zero] at this

theorem round3_le_one {q : Rat} (h : q ≤ 1) : round3 q ≤ 1 := by
  have := round3_mono h
  rwa [round3_one] at this

theorem pyStrip_eq_nil_of_all_space {s : List Char}
    (h : s.all isSpaceChar = true) : pyStrip s = [] := by
  unfold pyStrip
  have h1 : s.dropWhile isSpaceChar = [] :=
    List.dropWhile_eq_nil_iff.mpr (by simpa [List.all_eq_true] using h)
  simp [h1]

theorem castMax_pos (n m : Nat) (hm : 0 < m) :
    (0 : Rat) < ((max n m : Nat) : Rat) := by
  exact_mod_cast lt_of_lt_of_le hm (le_max_right n m)

theorem castRatio_nonneg (a : Nat) (b : Rat) (hb : 0 ≤ b) :
    0 ≤ (a : Rat) / b :=
  div_nonneg (Nat.cast_nonneg a) hb

theorem castRatio_le_one {a n m : Nat} (hm : 0 < m) (h : a ≤ max n m) :
    (a : Rat) / ((max n m : Nat) : Rat) ≤ 1 := by
  rw [div_le_one (castMax_pos n m hm)]
  exact_mod_cast h

theorem round3_mem_unit {q : Rat} (h0 : 0 ≤ q) (h1 : q ≤ 1) :
    0 ≤ round3 q ∧ round3 q ≤ 1 :=
  ⟨round3_nonneg h0, round3_le_one h1⟩

theorem dictGet_dictSet_same (d : Params) (k : String) (v dflt : Rat) :
    dictGet (dictSet d k v) k dflt = v := by
  induction d with
  | nil => simp [dictSet, dictGet]
  | cons p rest ih =>
    by_cases h : p.1 = k
    · simp [dictSet, h, dictGet]
    · simp [dictSet, h, dictGet, ih]

theorem dictGet_dictSet_other (d : Params) (k k2 : String) (v dflt : Rat)
    (hk : k2 ≠ k) : dictGet (dictSet d k v) k2 dflt = dictGet d k2 dflt := by
  have hk2 : k ≠ k2 := fun h => hk h.symm
  induction d with
  | nil => simp [dictSet, dictGet, hk2]
  | cons p rest ih =>
    by_cases h : p.1 = k
    · have h2 : ¬ p.1 = k2 := by rw [h]; exact hk2
      simp [dictSet, h, dictGet, hk2, h2]
    · by_cases h2 : p.1 = k2
      · simp [dictSet, h, dictGet, h2, hk]
      · simp [dictSet, h, dictGet, h2, ih]

theorem calculate_readability_mem (text : List Char) :
    0 ≤ QualityMetrics.calculate_readability text ∧
      QualityMetrics.calculate_readability text ≤ 1 := by
  unfold QualityMetrics.calculate_readability
  by_cases h1 : pyStrip text = []
  · rw [if_pos h1]; norm_num
  rw [if_neg h1]
  dsimp only
  by_cases h2 : QualityMetrics.sentencesOf text = []
  · rw [if_pos h2]; norm_num
  rw [if_neg h2]
  apply round3_mem_unit
  · have hx : (0 : Rat) ≤ max 0 (min 1 (1 -
        (((QualityMetrics.sentencesOf text).map
            (fun s => ((pyWords s).length : Rat))).sum /
          ((QualityMetrics.sentencesOf text).length : Rat) - 15) / 30)) :=
      le_max_left 0 _
    have hy : (0 : Rat) ≤ min
        (((((text.filter (fun c => c ∈ punctChars)).length : Nat) : Rat) /
          ((max (pyWords text).length 1 : Nat) : Rat)) * 10) 1 :=
      le_min (by positivity) (by norm_num)
    nlinarith
  · have hx : max 0 (min 1 (1 -
        (((QualityMetrics.sentencesOf text).map
            (fun s => ((pyWords s).length : Rat))).sum /
          ((QualityMetrics.sentencesOf text).length : Rat) - 15) / 30)) ≤ 1 :=
      max_le (by norm_num) (min_le_left 1 _)
    have hy : min
        (((((text.filter (fun c => c ∈ punctChars)).length : Nat) : Rat) /
          ((max (pyWords text).length 1 : Nat) : Rat)) * 10) 1 ≤ 1 :=
      min_le_right _ 1
    nlinarith

theorem calculate_coherence_mem (text : List Char) :
    0 ≤ QualityMetrics.calculate_coherence text ∧
      QualityMetrics.calculate_coherence text ≤ 1 := by
  unfold QualityMetrics.calculate_coherence
  by_cases h1 : pyStrip text = []
  · rw [if_pos h1]; norm_num
  rw [if_neg h1]
  dsimp only
  by_cases h2 : (QualityMetrics.sentencesOf text).length < 2
  · rw [if_pos h2]; norm_num
  rw [if_neg h2]
  have hcs0 : (0 : Rat) ≤ min
      (((QualityMetrics.connectors.filter
          (fun c => containsSub c text)).length : Rat) /
        max (((QualityMetrics.sentencesOf text).length : Rat) * (3 / 10)) 1) 1 := by
    apply le_min _ (by norm_num)
    apply castRatio_nonneg
    exact le_trans (by norm_num) (le_max_right _ 1)
  have hcs1 : min
      (((QualityMetrics.connectors.filter
          (fun c => containsSub c text)).length : Rat) /
        max (((QualityMetrics.sentencesOf text).length : Rat) * (3 / 10)) 1) 1 ≤ 1 :=
    min_le_right _ 1
  have hrr0 : (0 : Rat) ≤ (((pyWords text).dedup.length : Nat) : Rat) /
      ((max (pyWords text).length 1 : Nat) : Rat) := by positivity
  have hrr1 : (((pyWords text).dedup.length : Nat) : Rat) /
      ((max (pyWords text).length 1 : Nat) : Rat) ≤ 1 := by
    apply castRatio_le_one Nat.one_pos
    exact le_trans (pyWords text).dedup_sublist.length_le (le_max_left _ 1)
  exact round3_mem_unit (by nlinarith) (by nlinarith)

theorem calculate_completeness_mem (text prompt : List Char) :
    0 ≤ QualityMetrics.calculate_completeness text prompt ∧
      QualityMetrics.calculate_completeness text prompt ≤ 1 := by
  unfold QualityMetrics.calculate_completeness
  by_cases h1 : pyStrip text = []
  · rw [if_pos h1]; norm_num
  rw [if_neg h1]
  dsimp only
  have hls0 : (0 : Rat) ≤ min ((text.length : Rat) /
      ((max (prompt.length * 2) 100 : Nat) : Rat)) 1 :=
    le_min (by positivity) (by norm_num)
  have hls1 : min ((text.length : Rat) /
      ((max (prompt.length * 2) 100 : Nat) : Rat)) 1 ≤ 1 :=
    min_le_right _ 1
  by_cases hc : QualityMetrics.conclusionMarkers.any (fun m => containsSub m text)
  · rw [if_pos hc]
    exact round3_mem_unit (by nlinarith) (by nlinarith)
  · rw [if_neg hc]
    exact round3_mem_unit (by nlinarith) (by nlinarith)

theorem calculate_relevance_mem (text prompt : List Char) :
    0 ≤ QualityMetrics.calculate_relevance text prompt ∧
      QualityMetrics.calculate_relevance text prompt ≤ 1 := by
  unfold QualityMetrics.calculate_relevance
  by_cases h1 : pyStrip text = [] || pyStrip prompt = []
  · rw [if_pos h1]; norm_num
  rw [if_neg h1]
  dsimp only
  by_cases h2 : (wordRuns (lowerStr prompt)).dedup ≠ []
  · rw [if_pos h2]
    apply round3_mem_unit (by positivity)
    rw [div_le_one]
    · exact_mod_cast List.length_filter_le _ _
    · have : 0 < (wordRuns (lowerStr prompt)).dedup.length :=
        List.length_pos.mpr h2
      exact_mod_cast this
  · rw [if_neg h2]
    exact round3_mem_unit (by norm_num) (by norm_num)

theorem overallQuality_mem (text prompt : List Char) :
    0 ≤ calculateOverallQuality text prompt ∧
      calculateOverallQuality text prompt ≤ 1 := by
  obtain ⟨r0, r1⟩ := calculate_readability_mem text
  obtain ⟨c0, c1⟩ := calculate_coherence_mem text
  obtain ⟨m0, m1⟩ := calculate_completeness_mem text prompt
  obtain ⟨v0, v1⟩ := calculate_relevance_mem text prompt
  unfold calculateOverallQuality
  exact round3_mem_unit (by nlinarith) (by nlinarith)

theorem overallQuality_blank {text : List Char} (h : pyStrip text = [])
    (prompt : List Char) : calculateOverallQuality text prompt = 0 := by
  unfold calculateOverallQuality QualityMetrics.calculate_readability
    QualityMetrics.calculate_coherence QualityMetrics.calculate_completeness
    QualityMetrics.calculate_relevance
  rw [if_pos h, if_pos h, if_pos h, if_pos (by rw [h]; simp)]
  norm_num [round3_zero]

theorem evaluateQuality_mem (text prompt : List Char) :
    0 ≤ QualityController.evaluate_quality text prompt ∧
      QualityController.evaluate_quality text prompt ≤ 1 := by
  unfold QualityController.evaluate_quality
  by_cases h1 : text = [] || pyStrip text = []
  · rw [if_pos h1]; norm_num
  rw [if_neg h1]
  dsimp only
  constructor
  · apply le_min (by norm_num)
    have hls : (0 : Rat) ≤ min 1 ((text.length : Rat) /
        ((max (prompt.length * 2) 100 : Nat) : Rat)) :=
      le_min (by norm_num) (by positivity)
    have hcs : (0 : Rat) ≤ (if (match (pyStrip text).getLast? with
        | some c => c ∈ QualityController.endingChars
        | none => false) = true then (1 : Rat) else 7 / 10) := by
      split <;> norm_num
    have hrs : (0 : Rat) ≤
        ((((((pyWords (lowerStr prompt)).dedup).filter
            (fun w => w ∉ QualityController.commonWords)).filter
            (fun w => w ∈ (pyWords (lowerStr text)).dedup)).length : Rat) /
          ((max (((pyWords (lowerStr prompt)).dedup).filter
            (fun w => w ∉ QualityController.commonWords)).length 1 : Nat) : Rat)) := by
      positivity
    nlinarith
  · exact min_le_left 1 _

theorem evaluateQuality_blank {text : List Char} (h : pyStrip text = [])
    (prompt : List Char) : QualityController.evaluate_quality text prompt = 0 := by
  unfold QualityController.evaluate_quality
  rw [if_pos (by rw [h]; simp)]

theorem mem_acceptedOf {th : Rat} {rs : List GenerationResult}
    {r : GenerationResult} :
    r ∈ acceptedOf th rs ↔ r ∈ rs ∧ r.success = true ∧ th ≤ r.qualityScore := by
  simp [acceptedOf, List.mem_filter]

theorem mem_lowQualityOf {th : Rat} {rs : List GenerationResult}
    {r : GenerationResult} :
    r ∈ lowQualityOf th rs ↔ r ∈ rs ∧ r.success = true ∧ r.qualityScore < th := by
  simp [lowQualityOf, List.mem_filter]

theorem mem_failedOf {rs : List GenerationResult} {r : GenerationResult} :
    r ∈ failedOf rs ↔ r ∈ rs ∧ r.success = false := by
  simp [failedOf, List.mem_filter]

theorem batchSuccessful_spec (run : GenerationTask → HttpOutcome)
    (threshold : Rat) (fuel : Nat) :
    ∀ tasks r, r ∈ batchSuccessful run threshold fuel tasks →
      r.success = true ∧ threshold ≤ r.qualityScore := by
  induction fuel with
  | zero =>
    intro tasks r h
    rw [batchSuccessful] at h
    exact (mem_acceptedOf.mp h).2
  | succ n ih =>
    intro tasks r h
    rw [batchSuccessful] at h
    rcases List.mem_append.mp h with h2 | h2
    · exact (mem_acceptedOf.mp h2).2
    · rcases em (lowQualityOf threshold (roundResults run tasks) = []) with he | he
      · rw [if_pos he] at h2; cases h2
      · rw [if_neg he] at h2
        exact ih _ r h2

theorem mem_batchSuccessful_of_accepted {run : GenerationTask → HttpOutcome}
    {threshold : Rat} {tasks : List GenerationTask} {r : GenerationResult}
    (fuel : Nat) (h : r ∈ acceptedOf threshold (roundResults run tasks)) :
    r ∈ batchSuccessful run threshold fuel tasks := by
  cases fuel with
  | zero => rw [batchSuccessful]; exact h
  | succ n =>
    rw [batchSuccessful]
    exact List.mem_append_left _ h

theorem numRetryRounds_le (run : GenerationTask → HttpOutcome)
    (threshold : Rat) (fuel : Nat) :
    ∀ tasks, numRetryRounds run threshold fuel tasks ≤ fuel := by
  induction fuel with
  | zero => intro tasks; rw [numRetryRounds]
  | succ n ih =>
    intro tasks
    rw [numRetryRounds]
    split
    · exact Nat.zero_le _
    · have := ih ((lowQualityOf threshold (roundResults run tasks)).map mkRetryTask)
      omega

theorem mem_roundResults {run : GenerationTask → HttpOutcome}
    {tasks : List GenerationTask} {task : GenerationTask} (h : task ∈ tasks) :
    generate_single task (run task) ∈ roundResults run tasks := by
  unfold roundResults
  exact List.mem_map_of_mem _
    (((List.perm_insertionSort taskGE tasks).mem_iff).mpr h)

theorem mem_scoredResults {run : BatchTask → HttpOutcome}
    {tasks : List BatchTask} {p : BatchTask × BatchResult}
    (h : p ∈ scoredResults run tasks) :
    p.2.success = (processSingleTask p.1 (run p.1)).success := by
  unfold scoredResults at h
  obtain ⟨t, _, hp⟩ := List.mem_map.mp h
  dsimp only at hp
  subst hp
  dsimp only
  split
  · rfl
  · rfl

theorem mem_handleRetries {run : BatchTask → HttpOutcome} {minQuality : Rat}
    {queue : List BatchTask} {r : BatchResult}
    (h : r ∈ handleRetries run minQuality queue) :
    r.success = true ∧ minQuality ≤ r.qualityScore := by
  unfold handleRetries at h
  obtain ⟨t, _, hr⟩ := List.mem_filterMap.mp h
  dsimp only at hr
  rcases hs : (processSingleTask (retryAdjust t) (run (retryAdjust t))).success with _ | _
  · rw [if_neg (by simp [hs])] at hr; cases hr
  · rw [if_pos (by simp [hs])] at hr
    rcases hq : decide (minQuality ≤ QualityController.evaluate_quality
        (processSingleTask (retryAdjust t) (run (retryAdjust t))).generatedText
        (retryAdjust t).prompt) with _ | _
    · rw [if_neg (by simpa using hq)] at hr; cases hr
    · rw [if_pos (by simpa using hq)] at hr
      obtain hr := Option.some.inj hr
      subst hr
      exact ⟨hs, by simpa using hq⟩

theorem mem_toolsSuccessful0 {run : BatchTask → HttpOutcome} {minQuality : Rat}
    {tasks : List BatchTask} {r : BatchResult}
    (h : r ∈ toolsSuccessful0 run minQuality tasks) :
    r.success = true ∧ minQuality ≤ r.qualityScore := by
  unfold toolsSuccessful0 at h
  obtain ⟨p, hp, hr⟩ := List.mem_map.mp h
  obtain ⟨_, hcond⟩ := List.mem_filter.mp hp
  subst hr
  simp only [Bool.and_eq_true, Bool.not_eq_true',
    QualityController.should_retry, decide_eq_false_iff_not, not_lt] at hcond
  exact hcond

theorem mem_toolsFailed {run : BatchTask → HttpOutcome}
    {tasks : List BatchTask} {r : BatchResult}
    (h : r ∈ toolsFailed run tasks) : r.success = false := by
  unfold toolsFailed at h
  obtain ⟨p, hp, hr⟩ := List.mem_map.mp h
  obtain ⟨_, hcond⟩ := List.mem_filter.mp hp
  subst hr
  simpa using hcond

theorem processBatch_successful_spec {run : BatchTask → HttpOutcome}
    {minQuality : Rat} {maxRetries : Nat} {tasks : List BatchTask}
    {r : BatchResult}
    (h : r ∈ (processBatch run minQuality maxRetries tasks).successfulResults) :
    r.success = true ∧ minQuality ≤ r.qualityScore := by
  unfold processBatch at h
  dsimp only at h
  rcases List.mem_append.mp h with h2 | h2
  · exact mem_toolsSuccessful0 h2
  · split at h2
    · exact mem_handleRetries h2
    · cases h2

theorem containsSub_append (needle pre : List Char) :
    containsSub needle (pre ++ needle) = true := by
  induction pre with
  | nil =>
    simp only [List.nil_append, containsSub]
    cases needle with
    | nil => simp [List.tails]
    | cons c cs =>
      simp only [List.tails, List.any_cons, Bool.or_eq_true]
      left
      rw [ List.isPrefixOf_iff_prefix]
  | cons c cs ih =>
    simp only [List.cons_append, containsSub, List.tails, List.any_cons,
      Bool.or_eq_true]
    right
    exact ih

-- Claims

/-- C1: for every generated text and every prompt, the overall quality score
returned by `TGWBatchGenerator._calculate_overall_quality` and by
`QualityController.evaluate_quality` lies in the interval [0,1]; and if the
generated text is empty or whitespace-only, both scores are exactly 0. -/
theorem quality_score_bounds (text prompt : List Char) :
    (0 ≤ calculateOverallQuality text prompt ∧
      calculateOverallQuality text prompt ≤ 1) ∧
    (0 ≤ QualityController.evaluate_quality text prompt ∧
      QualityController.evaluate_quality text prompt ≤ 1) ∧
    (text.all isSpaceChar = true →
      calculateOverallQuality text prompt = 0 ∧
      QualityController.evaluate_quality text prompt = 0) := by
  refine ⟨overallQuality_mem text prompt, evaluateQuality_mem text prompt,
    fun h => ?_⟩
  have hs := pyStrip_eq_nil_of_all_space h
  exact ⟨overallQuality_blank hs prompt, evaluateQuality_blank hs prompt⟩

/-- Witness for C1 at the whitespace-only text " " and prompt "p". -/
theorem quality_score_bounds_witness :
    (0 ≤ calculateOverallQuality " ".toList "p".toList ∧
      calculateOverallQuality " ".toList "p".toList ≤ 1) ∧
    (0 ≤ QualityController.evaluate_quality " ".toList "p".toList ∧
      QualityController.evaluate_quality " ".toList "p".toList ≤ 1) ∧
    (calculateOverallQuality " ".toList "p".toList = 0 ∧
      QualityController.evaluate_quality " ".toList "p".toList = 0) := by
  have h := quality_score_bounds " ".toList "p".toList
  exact ⟨h.1, h.2.1, h.2.2 (by decide)⟩

/-- C2 (code bug): on the empty task list, `_generate_summary` of
`tools/batch_processor.py` returns the all-zero summary with a guarded
success rate, as the claim states; but `TGWBatchGenerator.batch_generate`
evaluates `len(successful_results) / len(tasks) * 100` with an unguarded
division, so on the empty task list the success-rate computation faults
(`ZeroDivisionError`, modelled by `successRate = none`) instead of
completing. -/
theorem empty_batch_summary (run : GenerationTask → HttpOutcome)
    (threshold : Rat) (maxRetries : Nat) :
    (batchGenerate run threshold maxRetries []).summary.successRate = none ∧
    (batchGenerate run threshold maxRetries []).summary.totalTasks = 0 ∧
    generateSummary [] [] =
      { totalTasks := 0, successfulCount := 0, failedCount := 0,
        successRate := 0, averageGenerationTime := 0,
        averageQualityScore := 0, qualityDistribution := [] } := by
  refine ⟨?_, rfl, ?_⟩
  · show (pyDiv ((batchSuccessful run threshold maxRetries []).length : Rat)
        ((([] : List GenerationTask).length : Nat) : Rat)).map (fun x => x * 100) =
      none
    norm_num [pyDiv]
  · show ToolsSummary.mk _ _ _ _ _ _ _ = _
    have h2 : round2 0 = 0 := by norm_num [round2]
    simp [generateSummary, h2, round3_zero]

/-- C9 counterexample: the text " " is non-empty and splits into fewer than
two non-empty sentences, yet `calculate_coherence` returns 0, not 0.5: the
whitespace-only guard (`if not text.strip()`) fires before the
single-sentence branch. -/
theorem coherence_whitespace_counterexample :
    " ".toList ≠ [] ∧
    (QualityMetrics.sentencesOf " ".toList).length < 2 ∧
    QualityMetrics.calculate_coherence " ".toList = 0 ∧
    QualityMetrics.calculate_coherence " ".toList ≠ 1 / 2 := by
  have h0 : QualityMetrics.calculate_coherence " ".toList = 0 := by
    unfold QualityMetrics.calculate_coherence
    rw [if_pos (by decide)]
  exact ⟨by decide, by decide, h0, by rw [h0]; norm_num⟩

/-- C9 (amended): for every text that strips to something non-empty and
splits into fewer than two non-empty sentences, `calculate_coherence`
returns exactly 0.5, regardless of content; a non-empty but whitespace-only
text instead returns 0. -/
theorem single_sentence_coherence (text : List Char)
    (h1 : pyStrip text ≠ [])
    (h2 : (QualityMetrics.sentencesOf text).length < 2) :
    QualityMetrics.calculate_coherence text = 1 / 2 := by
  unfold QualityMetrics.calculate_coherence
  rw [if_neg h1]
  dsimp only
  rw [if_pos h2]

/-- Witness for the amended C9 at the single-sentence text "hi". -/
theorem single_sentence_coherence_witness :
    QualityMetrics.calculate_coherence "hi".toList = 1 / 2 :=
  single_sentence_coherence "hi".toList (by decide) (by decide)

/-- C10: `batch_generate` and `process_batch` sort the task list of the
caller in place (`tasks.sort(key=..., reverse=True)`), so after the call the
list object of the caller holds the same tasks reordered by non-increasing
priority.
`batchGenerateCallerTasks` / `processBatchCallerTasks` model the post-call
contents of the list of the caller. -/
theorem caller_list_sorted_in_place (tasks : List GenerationTask)
    (btasks : List BatchTask) :
    (batchGenerateCallerTasks tasks).Perm tasks ∧
    List.Sorted taskGE (batchGenerateCallerTasks tasks) ∧
    (processBatchCallerTasks btasks).Perm btasks ∧
    List.Sorted batchTaskGE (processBatchCallerTasks btasks) :=
  ⟨List.perm_insertionSort taskGE tasks,
    List.sorted_insertionSort taskGE tasks,
    List.perm_insertionSort batchTaskGE btasks,
    List.sorted_insertionSort batchTaskGE btasks⟩

/-- C5: the generation clients are total converters from transport outcomes
to results — `generate_single` and `_process_single_task` wrap their whole
body in `try/except`, so a transport exception becomes a failed result
carrying `str(e)` and a non-200 response a failed result carrying the status
code; no exception propagates past this boundary (totality of the embedded
functions over every `HttpOutcome`). -/
theorem client_converts_all_failures (task : GenerationTask)
    (btask : BatchTask) (msg : String) (status : Nat) (body : List Char)
    (e : Rat) :
    ((generate_single task (.exc msg e)).success = false ∧
      (generate_single task (.exc msg e)).errorMessage = msg) ∧
    (status ≠ 200 →
      (generate_single task (.resp status body e)).success = false ∧
      (generate_single task (.resp status body e)).errorMessage =
        "API 錯誤: " ++ toString status) ∧
    ((processSingleTask btask (.exc msg e)).success = false ∧
      (processSingleTask btask (.exc msg e)).errorMessage = msg) ∧
    (status ≠ 200 →
      (processSingleTask btask (.resp status body e)).success = false ∧
      (processSingleTask btask (.resp status body e)).errorMessage =
        "API 錯誤: " ++ toString status) := by
  refine ⟨⟨rfl, rfl⟩, fun h => ?_, ⟨rfl, rfl⟩, fun h => ?_⟩
  · simp only [generate_single]
    rw [if_neg h]
    exact ⟨rfl, rfl⟩
  · simp only [processSingleTask]
    rw [if_neg h]
    exact ⟨rfl, rfl⟩

/-- Witness for C5 at a concrete task, the exception message "boom" and the
status code 500. -/
theorem client_converts_all_failures_witness :
    ((generate_single ⟨"t1", "p".toList, [], "", 1, []⟩
        (.exc "boom" 0)).success = false ∧
      (generate_single ⟨"t1", "p".toList, [], "", 1, []⟩
        (.exc "boom" 0)).errorMessage = "boom") ∧
    ((generate_single ⟨"t1", "p".toList, [], "", 1, []⟩
        (.resp 500 [] 0)).success = false ∧
      (generate_single ⟨"t1", "p".toList, [], "", 1, []⟩
        (.resp 500 [] 0)).errorMessage = "API 錯誤: " ++ toString 500) ∧
    ((processSingleTask ⟨"b1", "p".toList, [], [], 1⟩
        (.exc "boom" 0)).success = false ∧
      (processSingleTask ⟨"b1", "p".toList, [], [], 1⟩
        (.exc "boom" 0)).errorMessage = "boom") ∧
    ((processSingleTask ⟨"b1", "p".toList, [], [], 1⟩
        (.resp 500 [] 0)).success = false ∧
      (processSingleTask ⟨"b1", "p".toList, [], [], 1⟩
        (.resp 500 [] 0)).errorMessage = "API 錯誤: " ++ toString 500) := by
  have h := client_converts_all_failures ⟨"t1", "p".toList, [], "", 1, []⟩
    ⟨"b1", "p".toList, [], [], 1⟩ "boom" 500 [] 0
  exact ⟨h.1, h.2.1 (by decide), h.2.2.1, h.2.2.2 (by decide)⟩

/-- C8 counterexample: the Python `str(e)` may be the empty string (for
example `str(Exception())`), and `generate_single` stores it unchanged, so a
result can have `success = false` with an empty error description — the
claimed equivalence fails in the failure-to-non-empty direction. -/
theorem error_iff_counterexample :
    (generate_single ⟨"t1", "p".toList, [], "", 1, []⟩ (.exc "" 0)).success
      = false ∧
    (generate_single ⟨"t1", "p".toList, [], "", 1, []⟩ (.exc "" 0)).errorMessage
      = "" :=
  ⟨rfl, rfl⟩

/-- C8 (amended): for every result of the generation clients whose
originating outcome is not an exception with an empty `str(e)`, `success =
false` holds iff the error description is non-empty.  (Unconditionally,
success implies an empty error description and a non-empty error description
implies failure; the only exception is an empty exception message.) -/
theorem error_iff_failure (task : GenerationTask) (btask : BatchTask)
    (o : HttpOutcome) (hmsg : ∀ msg e, o = .exc msg e → msg ≠ "") :
    ((generate_single task o).success = false ↔
      (generate_single task o).errorMessage ≠ "") ∧
    ((processSingleTask btask o).success = false ↔
      (processSingleTask btask o).errorMessage ≠ "") := by
  have happ : ∀ status : Nat, ("API 錯誤: " ++ toString status) ≠ "" := by
    intro status h
    have hd : ("API 錯誤: " ++ toString status).data = "".data := by rw [h]
    rw [String.data_append] at hd
    have := (List.append_eq_nil.mp hd).1
    simp at this
  cases o with
  | exc msg e =>
    have hm := hmsg msg e rfl
    constructor
    · constructor
      · intro _
        show msg ≠ ""
        exact hm
      · intro _
        rfl
    · constructor
      · intro _
        show msg ≠ ""
        exact hm
      · intro _
        rfl
  | resp status body e =>
    by_cases h200 : status = 200
    · subst h200
      constructor
      · constructor
        · intro h
          cases h
        · intro h
          exact absurd rfl h
      · constructor
        · intro h
          cases h
        · intro h
          exact absurd rfl h
    · constructor
      · simp only [generate_single]
        rw [if_neg h200]
        exact ⟨fun _ => happ status, fun _ => rfl⟩
      · simp only [processSingleTask]
        rw [if_neg h200]
        exact ⟨fun _ => happ status, fun _ => rfl⟩

/-- Witness for the amended C8 at a non-empty exception message and at
status 500. -/
theorem error_iff_failure_witness :
    ((generate_single ⟨"t1", "p".toList, [], "", 1, []⟩
        (.exc "boom" 0)).success = false ↔
      (generate_single ⟨"t1", "p".toList, [], "", 1, []⟩
        (.exc "boom" 0)).errorMessage ≠ "") ∧
    ((processSingleTask ⟨"b1", "p".toList, [], [], 1⟩
        (.exc "boom" 0)).success = false ↔
      (processSingleTask ⟨"b1", "p".toList, [], [], 1⟩
        (.exc "boom" 0)).errorMessage ≠ "") :=
  error_iff_failure ⟨"t1", "p".toList, [], "", 1, []⟩
    ⟨"b1", "p".toList, [], [], 1⟩ (.exc "boom" 0)
    (fun msg e h => by injection h with h1 h2; rw [← h1]; decide)

/-- C4 counterexample: in `AdvancedBatchProcessor._handle_retries` the retry
is NOT issued as a new task with a suffixed identifier — the original task
parameter dict of the object is overwritten in place (`task.parameters[...] = ...`)
and the retried request keeps the original identifier: here `retryAdjust` is
the post-mutation state of the task object of the caller, its id is unchanged and
its stored temperature has been replaced by 0.5, and the retry result carries
the unsuffixed id "task_001". -/
theorem retry_mutates_task_counterexample :
    (retryAdjust ⟨"task_001", "p".toList, [("temperature", 7/10)], [], 1⟩).id
      = "task_001" ∧
    dictGet (retryAdjust
        ⟨"task_001", "p".toList, [("temperature", 7/10)], [], 1⟩).parameters
        "temperature" 0 = 1/2 ∧
    (handleRetries (fun _ => .resp 200 [] 0) 0
        [⟨"task_001", "p".toList, [("temperature", 7/10)], [], 1⟩]).map
        (fun r => r.taskId) = ["task_001"] := by
  refine ⟨rfl, ?_, ?_⟩
  · unfold retryAdjust
    dsimp only
    rw [dictGet_dictSet_same]
    norm_num [dictGet]
  · decide

/-- C4 (amended): in `TGWBatchGenerator.batch_generate` the retry for a
low-quality result is a NEW `GenerationTask` whose identifier is the original
identifier suffixed with "_retry", whose parameters are a copy of the
original parameters with only the temperature changed to
`max(0.3, original − 0.2)` (every other key unchanged, original untouched);
in `AdvancedBatchProcessor._handle_retries` the temperature is lowered by the
same formula, but the original parameter dict of the task is mutated in place and
the retry keeps the original identifier unchanged. -/
theorem retry_parameters (r : GenerationResult) (t : BatchTask) (k : String)
    (dflt : Rat) :
    (mkRetryTask r).id = r.taskId ++ "_retry" ∧
    (mkRetryTask r).prompt = r.prompt ∧
    (mkRetryTask r).metadata = r.metadata ∧
    dictGet (mkRetryTask r).parameters "temperature" dflt =
      max (3 / 10) (dictGet r.parameters "temperature" (7 / 10) - 1 / 5) ∧
    (k ≠ "temperature" →
      dictGet (mkRetryTask r).parameters k dflt =
        dictGet r.parameters k dflt) ∧
    (retryAdjust t).id = t.id ∧
    dictGet (retryAdjust t).parameters "temperature" dflt =
      max (3 / 10) (dictGet t.parameters "temperature" (7 / 10) - 1 / 5) ∧
    (k ≠ "temperature" →
      dictGet (retryAdjust t).parameters k dflt = dictGet t.parameters k dflt) :=
  ⟨rfl, rfl, rfl,
    dictGet_dictSet_same r.parameters "temperature" _ dflt,
    fun hk => dictGet_dictSet_other r.parameters "temperature" k _ dflt hk,
    rfl,
    dictGet_dictSet_same t.parameters "temperature" _ dflt,
    fun hk => dictGet_dictSet_other t.parameters "temperature" k _ dflt hk⟩

/-- Witness for the amended C4 at a concrete result, task and the key
"top_p". -/
theorem retry_parameters_witness :
    (mkRetryTask ⟨"abc12345", "p".toList, [],
        [("temperature", 7/10), ("top_p", 9/10)], 0, 0, 0, [], "", true, ""⟩).id
      = "abc12345" ++ "_retry" ∧
    dictGet (mkRetryTask ⟨"abc12345", "p".toList, [],
        [("temperature", 7/10), ("top_p", 9/10)], 0, 0, 0, [], "", true, ""⟩).parameters
        "temperature" 0 =
      max (3 / 10) (dictGet [("temperature", 7/10), ("top_p", 9/10)]
        "temperature" (7 / 10) - 1 / 5) ∧
    dictGet (mkRetryTask ⟨"abc12345", "p".toList, [],
        [("temperature", 7/10), ("top_p", 9/10)], 0, 0, 0, [], "", true, ""⟩).parameters
        "top_p" 0 =
      dictGet [("temperature", 7/10), ("top_p", 9/10)] "top_p" 0 ∧
    (retryAdjust ⟨"task_001", "p".toList, [("temperature", 7/10)], [], 1⟩).id
      = "task_001" := by
  have h := retry_parameters
    ⟨"abc12345", "p".toList, [], [("temperature", 7/10), ("top_p", 9/10)],
      0, 0, 0, [], "", true, ""⟩
    ⟨"task_001", "p".toList, [("temperature", 7/10)], [], 1⟩ "top_p" 0
  exact ⟨h.1, h.2.2.2.1, h.2.2.2.2.1 (by decide), h.2.2.2.2.2.1⟩

/-- C6: a non-200 HTTP response (for example 500) yields a result with
`success = false` whose error description contains the status code, and such
failures are never retried: in `batch_generate` retry tasks are built
exactly from the low-quality partition (`low_quality_results`, mapped through
`mkRetryTask` in the definition of `batchSuccessful`), every member of which
has `success = true`; and in `process_batch` every task in the retry queue
had a successful first-round generation. -/
theorem non200_failed_never_retried (task : GenerationTask) (status : Nat)
    (body : List Char) (e : Rat) (run : GenerationTask → HttpOutcome)
    (threshold : Rat) (maxRetries : Nat) (tasks : List GenerationTask)
    (run2 : BatchTask → HttpOutcome) (minQuality : Rat)
    (tasks2 : List BatchTask) :
    (status ≠ 200 →
      (generate_single task (.resp status body e)).success = false ∧
      containsSub (toString status).toList
        (generate_single task (.resp status body e)).errorMessage.toList
        = true) ∧
    (∀ r ∈ (batchGenerate run threshold maxRetries tasks).lowQuality,
      r.success = true) ∧
    (∀ t2 ∈ toolsRetryQueue run2 minQuality tasks2,
      (processSingleTask t2 (run2 t2)).success = true) := by
  refine ⟨fun h => ?_, fun r hr => ?_, fun t2 ht => ?_⟩
  · simp only [generate_single]
    rw [if_neg h]
    refine ⟨rfl, ?_⟩
    show containsSub (toString status).toList
      ("API 錯誤: " ++ toString status).data = true
    rw [String.data_append]
    exact containsSub_append _ _
  · have hr2 : r ∈ lowQualityOf threshold (roundResults run tasks) := hr
    exact (mem_lowQualityOf.mp hr2).2.1
  · unfold toolsRetryQueue at ht
    obtain ⟨p, hp, hpt⟩ := List.mem_map.mp ht
    obtain ⟨hmem, hcond⟩ := List.mem_filter.mp hp
    have hsucc : p.2.success = true := by
      have h3 := hcond
      simp only [Bool.and_eq_true] at h3
      exact h3.1
    have h2 := mem_scoredResults hmem
    rw [h2] at hsucc
    rw [← hpt]
    exact hsucc

/-- Witness for C6: status 500 produces a failed result whose error mentions
"500"; a successful-but-low-quality generation sits in the low-quality
partition with `success = true`; a retry-queue member whose first round
succeeded. -/
theorem non200_failed_never_retried_witness :
    ((generate_single ⟨"t1", "p".toList, [], "", 1, []⟩
        (.resp 500 [] 0)).success = false ∧
      containsSub (toString 500).toList
        (generate_single ⟨"t1", "p".toList, [], "", 1, []⟩
          (.resp 500 [] 0)).errorMessage.toList = true) ∧
    (generate_single ⟨"t1", "p".toList, [], "", 1, []⟩
      ((fun _ => HttpOutcome.resp 200 [] 0)
        (⟨"t1", "p".toList, [], "", 1, []⟩ : GenerationTask))).success = true ∧
    (processSingleTask ⟨"b1", "p".toList, [], [], 1⟩
      ((fun _ => HttpOutcome.resp 200 [] 0)
        (⟨"b1", "p".toList, [], [], 1⟩ : BatchTask))).success = true := by
  have h := non200_failed_never_retried ⟨"t1", "p".toList, [], "", 1, []⟩
    500 [] 0 (fun _ => HttpOutcome.resp 200 [] 0) (6/10) 2
    [⟨"t1", "p".toList, [], "", 1, []⟩]
    (fun _ => HttpOutcome.resp 200 [] 0) (6/10)
    [⟨"b1", "p".toList, [], [], 1⟩]
  have hlt : (generate_single ⟨"t1", "p".toList, [], "", 1, []⟩
      ((fun _ => HttpOutcome.resp 200 [] 0)
        (⟨"t1", "p".toList, [], "", 1, []⟩ : GenerationTask))).qualityScore
      < 6/10 := by
    have hq : (generate_single ⟨"t1", "p".toList, [], "", 1, []⟩
        ((fun _ => HttpOutcome.resp 200 [] 0)
          (⟨"t1", "p".toList, [], "", 1, []⟩ : GenerationTask))).qualityScore
        = calculateOverallQuality [] "p".toList := rfl
    rw [hq, @overallQuality_blank [] rfl "p".toList]
    norm_num
  have hmem : generate_single ⟨"t1", "p".toList, [], "", 1, []⟩
      ((fun _ => HttpOutcome.resp 200 [] 0)
        (⟨"t1", "p".toList, [], "", 1, []⟩ : GenerationTask)) ∈
      (batchGenerate (fun _ => HttpOutcome.resp 200 [] 0) (6/10) 2
        [⟨"t1", "p".toList, [], "", 1, []⟩]).lowQuality := by
    have hm : generate_single ⟨"t1", "p".toList, [], "", 1, []⟩
        ((fun _ => HttpOutcome.resp 200 [] 0)
          (⟨"t1", "p".toList, [], "", 1, []⟩ : GenerationTask)) ∈
        lowQualityOf (6/10) (roundResults (fun _ => HttpOutcome.resp 200 [] 0)
          [⟨"t1", "p".toList, [], "", 1, []⟩]) :=
      mem_lowQualityOf.mpr
        ⟨mem_roundResults (List.mem_singleton.mpr rfl), rfl, hlt⟩
    exact hm
  have hsc : scoredResults (fun _ => HttpOutcome.resp 200 [] 0)
      [⟨"b1", "p".toList, [], [], 1⟩]
      = [(⟨"b1", "p".toList, [], [], 1⟩, ⟨"b1", true, [], 0, 0, "", []⟩)] := rfl
  have hbmem : (⟨"b1", "p".toList, [], [], 1⟩ : BatchTask) ∈
      toolsRetryQueue (fun _ => HttpOutcome.resp 200 [] 0) (6/10)
        [⟨"b1", "p".toList, [], [], 1⟩] := by
    unfold toolsRetryQueue
    rw [hsc]
    apply List.mem_map.mpr
    refine ⟨(⟨"b1", "p".toList, [], [], 1⟩, ⟨"b1", true, [], 0, 0, "", []⟩),
      List.mem_filter.mpr ⟨List.mem_singleton.mpr rfl, ?_⟩, rfl⟩
    show (true && QualityController.should_retry (6/10) 0) = true
    norm_num [QualityController.should_retry]
  exact ⟨h.1 (by decide), h.2.1 _ hmem, h.2.2 _ hbmem⟩

/-- When every generation (first round and retry) succeeds with quality below
`min_quality`, `process_batch` returns empty partitions: the persistently
low-quality tasks appear in neither `successful_results` nor
`failed_results`, and the summary counts none of them. -/
theorem processBatch_drops_low (run : BatchTask → HttpOutcome)
    (minQuality : Rat) (maxRetries : Nat) (tasks : List BatchTask)
    (h1 : ∀ t : BatchTask, (processSingleTask t (run t)).success = true)
    (h2 : ∀ t : BatchTask, QualityController.evaluate_quality
        (processSingleTask t (run t)).generatedText t.prompt < minQuality) :
    (processBatch run minQuality maxRetries tasks).successfulResults = [] ∧
    (processBatch run minQuality maxRetries tasks).failedResults = [] ∧
    (processBatch run minQuality maxRetries tasks).summary.totalTasks = 0 := by
  have hscored : ∀ p ∈ scoredResults run tasks,
      p.2.success = true ∧ p.2.qualityScore < minQuality := by
    intro p hp
    obtain ⟨t, _, hpt⟩ := List.mem_map.mp hp
    rw [← hpt]
    dsimp only
    rw [if_pos (h1 t)]
    exact ⟨h1 t, h2 t⟩
  have hsucc0 : toolsSuccessful0 run minQuality tasks = [] := by
    unfold toolsSuccessful0
    rw [List.filter_eq_nil_iff.mpr ?_]
    · rfl
    intro p hp
    obtain ⟨hs, hq⟩ := hscored p hp
    simp [hs, QualityController.should_retry, hq]
  have hfail : toolsFailed run tasks = [] := by
    unfold toolsFailed
    rw [List.filter_eq_nil_iff.mpr ?_]
    · rfl
    intro p hp
    obtain ⟨hs, _⟩ := hscored p hp
    simp [hs]
  have hretry : ∀ queue, handleRetries run minQuality queue = [] := by
    intro queue
    unfold handleRetries
    apply List.filterMap_eq_nil_iff.mpr
    intro t _
    dsimp only
    rw [if_pos (h1 (retryAdjust t)), if_neg (not_le.mpr (h2 (retryAdjust t)))]
  refine ⟨?_, ?_, ?_⟩
  · show toolsSuccessful0 run minQuality tasks ++
      (if toolsRetryQueue run minQuality tasks ≠ [] ∧ maxRetries > 0
        then handleRetries run minQuality (toolsRetryQueue run minQuality tasks)
        else []) = []
    rw [hsucc0, List.nil_append]
    split
    · exact hretry _
    · rfl
  · exact hfail
  · show (toolsSuccessful0 run minQuality tasks ++
      (if toolsRetryQueue run minQuality tasks ≠ [] ∧ maxRetries > 0
        then handleRetries run minQuality (toolsRetryQueue run minQuality tasks)
        else [])).length + (toolsFailed run tasks).length = 0
    rw [hsucc0, hfail, List.nil_append]
    split
    · rw [hretry _]
      rfl
    · rfl

/-- C3 counterexample: a task whose generations always succeed with quality
0 (below the 0.6 threshold) is silently dropped by
`AdvancedBatchProcessor.process_batch` once the retry fails to improve it:
the result of the task appears in neither `successful_results` nor
`failed_results` (there is no low-quality partition in this output at all),
and `total_tasks` in the summary is 0 although one task was processed. -/
theorem retry_exhaustion_drops_task :
    (processBatch (fun _ => HttpOutcome.resp 200 [] 0) (6/10) 2
        [⟨"task_001", "p".toList, [], [], 1⟩]).successfulResults = [] ∧
    (processBatch (fun _ => HttpOutcome.resp 200 [] 0) (6/10) 2
        [⟨"task_001", "p".toList, [], [], 1⟩]).failedResults = [] ∧
    (processBatch (fun _ => HttpOutcome.resp 200 [] 0) (6/10) 2
        [⟨"task_001", "p".toList, [], [], 1⟩]).summary.totalTasks = 0 := by
  apply processBatch_drops_low
  · intro t
    rfl
  · intro t
    show QualityController.evaluate_quality [] t.prompt < 6/10
    rw [show QualityController.evaluate_quality [] t.prompt = 0 from rfl]
    norm_num

/-- C3 (amended): for every retry budget N, `batch_generate` performs at
most N retry rounds, and a persistently low-quality result of the task remains in
the low-quality partition of its output (not dropped); in
`process_batch`, however, a persistently low-quality task is dropped: after
its single retry round it appears in neither `successful_results` nor
`failed_results`. -/
theorem retry_budget (run : GenerationTask → HttpOutcome) (threshold : Rat)
    (fuel : Nat) (tasks : List GenerationTask)
    (run2 : BatchTask → HttpOutcome) (minQuality : Rat) (maxRetries : Nat)
    (tasks2 : List BatchTask)
    (hlow : ∀ task : GenerationTask,
      (generate_single task (run task)).success = true ∧
      (generate_single task (run task)).qualityScore < threshold)
    (h1 : ∀ t : BatchTask, (processSingleTask t (run2 t)).success = true)
    (h2 : ∀ t : BatchTask, QualityController.evaluate_quality
        (processSingleTask t (run2 t)).generatedText t.prompt < minQuality) :
    numRetryRounds run threshold fuel tasks ≤ fuel ∧
    (∀ task ∈ tasks, generate_single task (run task) ∈
      (batchGenerate run threshold fuel tasks).lowQuality) ∧
    (processBatch run2 minQuality maxRetries tasks2).successfulResults = [] ∧
    (processBatch run2 minQuality maxRetries tasks2).failedResults = [] := by
  obtain ⟨ha, hb, _⟩ :=
    processBatch_drops_low run2 minQuality maxRetries tasks2 h1 h2
  refine ⟨numRetryRounds_le run threshold fuel tasks, fun task ht => ?_, ha, hb⟩
  have hm : generate_single task (run task) ∈
      lowQualityOf threshold (roundResults run tasks) :=
    mem_lowQualityOf.mpr ⟨mem_roundResults ht, (hlow task).1, (hlow task).2⟩
  exact hm

/-- Witness for the amended C3 on a one-task batch whose generations always
succeed with quality 0. -/
theorem retry_budget_witness :
    numRetryRounds (fun _ => HttpOutcome.resp 200 [] 0) (6/10) 2
      [⟨"t1", "p".toList, [], "", 1, []⟩] ≤ 2 ∧
    generate_single ⟨"t1", "p".toList, [], "", 1, []⟩
      ((fun _ => HttpOutcome.resp 200 [] 0)
        (⟨"t1", "p".toList, [], "", 1, []⟩ : GenerationTask)) ∈
      (batchGenerate (fun _ => HttpOutcome.resp 200 [] 0) (6/10) 2
        [⟨"t1", "p".toList, [], "", 1, []⟩]).lowQuality ∧
    (processBatch (fun _ => HttpOutcome.resp 200 [] 0) (6/10) 2
        [⟨"b1", "p".toList, [], [], 1⟩]).successfulResults = [] ∧
    (processBatch (fun _ => HttpOutcome.resp 200 [] 0) (6/10) 2
        [⟨"b1", "p".toList, [], [], 1⟩]).failedResults = [] := by
  have h := retry_budget (fun _ => HttpOutcome.resp 200 [] 0) (6/10) 2
    [⟨"t1", "p".toList, [], "", 1, []⟩]
    (fun _ => HttpOutcome.resp 200 [] 0) (6/10) 2
    [⟨"b1", "p".toList, [], [], 1⟩]
    (fun task => ⟨rfl, by
      rw [show (generate_single task ((fun _ => HttpOutcome.resp 200 [] 0)
          task)).qualityScore = calculateOverallQuality [] task.prompt from rfl,
        @overallQuality_blank [] rfl task.prompt]
      norm_num⟩)
    (fun t => rfl)
    (fun t => by
      show QualityController.evaluate_quality [] t.prompt < 6/10
      rw [show QualityController.evaluate_quality [] t.prompt = 0 from rfl]
      norm_num)
  exact ⟨h.1, h.2.1 _ (List.mem_singleton.mpr rfl), h.2.2.1, h.2.2.2⟩

/-- C7: every first-round result of a successful generation with quality at
or above the threshold is placed in the accepted partition, and no result
lies simultaneously in the accepted partition and in the failed or
low-quality partition (accepted results — including retry-round ones — have
`success = true` and score ≥ threshold; failed results have `success =
false`; low-quality results have score < threshold); likewise for
`process_batch`, whose accepted partition is disjoint from its failed
partition. -/
theorem accepted_partition_sound (run : GenerationTask → HttpOutcome)
    (threshold : Rat) (fuel : Nat) (tasks : List GenerationTask)
    (run2 : BatchTask → HttpOutcome) (minQuality : Rat) (maxRetries : Nat)
    (tasks2 : List BatchTask) :
    (∀ r ∈ roundResults run tasks, r.success = true →
      threshold ≤ r.qualityScore →
      r ∈ (batchGenerate run threshold fuel tasks).successful) ∧
    (∀ r ∈ (batchGenerate run threshold fuel tasks).successful,
      r ∉ (batchGenerate run threshold fuel tasks).failed ∧
      r ∉ (batchGenerate run threshold fuel tasks).lowQuality) ∧
    (∀ p ∈ scoredResults run2 tasks2, p.2.success = true →
      minQuality ≤ p.2.qualityScore →
      p.2 ∈ (processBatch run2 minQuality maxRetries tasks2).successfulResults) ∧
    (∀ r ∈ (processBatch run2 minQuality maxRetries tasks2).successfulResults,
      r ∉ (processBatch run2 minQuality maxRetries tasks2).failedResults) := by
  refine ⟨fun r hr hs hq => ?_, fun r hr => ?_, fun p hp hs hq => ?_,
    fun r hr => ?_⟩
  · show r ∈ batchSuccessful run threshold fuel tasks
    exact mem_batchSuccessful_of_accepted fuel (mem_acceptedOf.mpr ⟨hr, hs, hq⟩)
  · have hr2 : r ∈ batchSuccessful run threshold fuel tasks := hr
    obtain ⟨hs, hq⟩ := batchSuccessful_spec run threshold fuel tasks r hr2
    constructor
    · intro hf
      have hf2 : r ∈ failedOf (roundResults run tasks) := hf
      have hcontra := (mem_failedOf.mp hf2).2
      rw [hs] at hcontra
      cases hcontra
    · intro hl
      have hl2 : r ∈ lowQualityOf threshold (roundResults run tasks) := hl
      exact absurd hq (not_le.mpr (mem_lowQualityOf.mp hl2).2.2)
  · show p.2 ∈ toolsSuccessful0 run2 minQuality tasks2 ++
      (if toolsRetryQueue run2 minQuality tasks2 ≠ [] ∧ maxRetries > 0
        then handleRetries run2 minQuality (toolsRetryQueue run2 minQuality tasks2)
        else [])
    apply List.mem_append_left
    unfold toolsSuccessful0
    apply List.mem_map.mpr
    refine ⟨p, List.mem_filter.mpr ⟨hp, ?_⟩, rfl⟩
    simp [hs, QualityController.should_retry, not_lt.mpr hq]
  · obtain ⟨hs, _⟩ := processBatch_successful_spec hr
    intro hf
    have hf2 : r ∈ toolsFailed run2 tasks2 := hf
    have hcontra := mem_toolsFailed hf2
    rw [hs] at hcontra
    cases hcontra

/-- Witness for C7 at threshold 0: a successful quality-0 result lands in
the accepted partition and in neither the failed nor the low-quality
partition; likewise for `process_batch`. -/
theorem accepted_partition_sound_witness :
    generate_single ⟨"t1", "p".toList, [], "", 1, []⟩
      ((fun _ => HttpOutcome.resp 200 [] 0)
        (⟨"t1", "p".toList, [], "", 1, []⟩ : GenerationTask)) ∈
      (batchGenerate (fun _ => HttpOutcome.resp 200 [] 0) 0 2
        [⟨"t1", "p".toList, [], "", 1, []⟩]).successful ∧
    generate_single ⟨"t1", "p".toList, [], "", 1, []⟩
      ((fun _ => HttpOutcome.resp 200 [] 0)
        (⟨"t1", "p".toList, [], "", 1, []⟩ : GenerationTask)) ∉
      (batchGenerate (fun _ => HttpOutcome.resp 200 [] 0) 0 2
        [⟨"t1", "p".toList, [], "", 1, []⟩]).failed ∧
    generate_single ⟨"t1", "p".toList, [], "", 1, []⟩
      ((fun _ => HttpOutcome.resp 200 [] 0)
        (⟨"t1", "p".toList, [], "", 1, []⟩ : GenerationTask)) ∉
      (batchGenerate (fun _ => HttpOutcome.resp 200 [] 0) 0 2
        [⟨"t1", "p".toList, [], "", 1, []⟩]).lowQuality ∧
    (⟨"b1", true, [], 0, 0, "", []⟩ : BatchResult) ∈
      (processBatch (fun _ => HttpOutcome.resp 200 [] 0) 0 2
        [⟨"b1", "p".toList, [], [], 1⟩]).successfulResults ∧
    (⟨"b1", true, [], 0, 0, "", []⟩ : BatchResult) ∉
      (processBatch (fun _ => HttpOutcome.resp 200 [] 0) 0 2
        [⟨"b1", "p".toList, [], [], 1⟩]).failedResults := by
  have h := accepted_partition_sound (fun _ => HttpOutcome.resp 200 [] 0) 0 2
    [⟨"t1", "p".toList, [], "", 1, []⟩]
    (fun _ => HttpOutcome.resp 200 [] 0) 0 2
    [⟨"b1", "p".toList, [], [], 1⟩]
  have hq0 : (generate_single ⟨"t1", "p".toList, [], "", 1, []⟩
      ((fun _ => HttpOutcome.resp 200 [] 0)
        (⟨"t1", "p".toList, [], "", 1, []⟩ : GenerationTask))).qualityScore
      = 0 := by
    show calculateOverallQuality [] "p".toList = 0
    exact @overallQuality_blank [] rfl "p".toList
  have hacc := h.1 _ (mem_roundResults (List.mem_singleton.mpr rfl)) rfl
    (le_of_eq hq0.symm)
  have hdisj := h.2.1 _ hacc
  have hsc : scoredResults (fun _ => HttpOutcome.resp 200 [] 0)
      [⟨"b1", "p".toList, [], [], 1⟩]
      = [(⟨"b1", "p".toList, [], [], 1⟩, ⟨"b1", true, [], 0, 0, "", []⟩)] := rfl
  have hpmem : ((⟨"b1", "p".toList, [], [], 1⟩ : BatchTask),
      (⟨"b1", true, [], 0, 0, "", []⟩ : BatchResult)) ∈
      scoredResults (fun _ => HttpOutcome.resp 200 [] 0)
        [⟨"b1", "p".toList, [], [], 1⟩] := by
    rw [hsc]
    exact List.mem_singleton.mpr rfl
  have hacc2 := h.2.2.1 _ hpmem rfl (le_refl 0)
  have hdisj2 := h.2.2.2 _ hacc2
  exact ⟨hacc, hdisj.1, hdisj.2, hacc2, hdisj2⟩
